import Mathlib

/-!
Verification of the clova-cek-sdk-python request/response core.

We shallowly embed the Python code of `cek/core.py`, `cek/core/handler.py`,
`cek/core/models.py` and `cek/clova.py` into Lean.  Decoded JSON values are
modelled by the inductive type `JVal`; Python dict operations become
operations on association lists; Python exceptions become an explicit
error type `PyErr` and fallible code returns `Except PyErr`.
-/

namespace Cek

/-- A decoded JSON value, as produced by `json.loads`.  Python dicts are
modelled as association lists in insertion order (keys unique). -/
inductive JVal where
  | null
  | bool (b : Bool)
  | num (n : Int)
  | str (s : String)
  | arr (elems : List JVal)
  | obj (fields : List (String × JVal))
  deriving Repr

/-- The Python exceptions that the embedded code can raise. -/
inductive PyErr where
  | keyError (key : String)
  | typeError (msg : String)
  | valueError (msg : String)
  | attributeError (msg : String)
  | applicationIdMismatch (msg : String)
  | invalidSignature
  deriving DecidableEq, Repr

@[simp] theorem except_bind_ok {α β : Type} (a : α) (f : α → Except PyErr β) :
    (Except.ok a >>= f) = f a := rfl

@[simp] theorem except_bind_error {α β : Type} (e : PyErr) (f : α → Except PyErr β) :
    ((Except.error e : Except PyErr α) >>= f) = (Except.error e : Except PyErr β) := rfl

@[simp] theorem except_map_ok {α β : Type} (a : α) (f : α → β) :
    (Except.map f (Except.ok a) : Except PyErr β) = Except.ok (f a) := rfl

@[simp] theorem except_map_error {α β : Type} (e : PyErr) (f : α → β) :
    (Except.map f (Except.error e : Except PyErr α) : Except PyErr β) = Except.error e := rfl

/-- First binding of a key in an association list (Python dict keys are
unique, so this is dict lookup). -/
def lookupField : List (String × JVal) → String → Option JVal
  | [], _ => none
  | (k, v) :: rest, key => if k = key then some v else lookupField rest key

/-- Replace the binding of `key` in place, or append it at the end if absent
(Python `d[key] = v` semantics, preserving insertion order). -/
def setField : List (String × JVal) → String → JVal → List (String × JVal)
  | [], key, v => [(key, v)]
  | (k, w) :: rest, key, v =>
      if k = key then (k, v) :: rest else (k, w) :: setField rest key v

/-- Python `d[key]`: `KeyError` if absent, `TypeError` when subscripting a
non-dict value. -/
def JVal.getItem : JVal → String → Except PyErr JVal
  | .obj fields, key =>
      match lookupField fields key with
      | some v => .ok v
      | none => .error (.keyError key)
  | _, _ => .error (.typeError "value is not subscriptable by string")

/-- Python `d.get(key, default)` on a dict. -/
def JVal.getD : JVal → String → JVal → Except PyErr JVal
  | .obj fields, key, dflt => .ok ((lookupField fields key).getD dflt)
  | _, _, _ => .error (.attributeError "value has no attribute get")

/-- Python `key in d` for a dict (claims only exercise dict receivers). -/
def JVal.hasKey : JVal → String → Bool
  | .obj fields, key => (lookupField fields key).isSome
  | _, _ => false

/-- Python `d[key] = v` on a dict, rebuilding the object. -/
def JVal.setItem : JVal → String → JVal → Except PyErr JVal
  | .obj fields, key, v => .ok (.obj (setField fields key v))
  | _, _, _ => .error (.typeError "value does not support item assignment")

/-- Python `d.setdefault(key, v)`: returns the stored value and the
(possibly extended) dict. -/
def JVal.setdefault : JVal → String → JVal → Except PyErr (JVal × JVal)
  | .obj fields, key, v =>
      match lookupField fields key with
      | some w => .ok (w, .obj fields)
      | none => .ok (v, .obj (fields ++ [(key, v)]))
  | _, _, _ => .error (.attributeError "value has no attribute setdefault")

@[simp] theorem lookupField_setField_self (fs : List (String × JVal)) (k : String) (v : JVal) :
    lookupField (setField fs k v) k = some v := by
  induction fs with
  | nil => simp [setField, lookupField]
  | cons hd tl ih =>
      by_cases h : hd.1 = k <;> simp [setField, lookupField, h, ih]

theorem lookupField_setField_ne (fs : List (String × JVal)) (k k' : String) (v : JVal)
    (h : k' ≠ k) : lookupField (setField fs k v) k' = lookupField fs k' := by
  induction fs with
  | nil =>
      have : ¬ k = k' := fun h' => h h'.symm
      simp [setField, lookupField, this]
  | cons hd tl ih =>
      obtain ⟨k₀, v₀⟩ := hd
      by_cases hk : k₀ = k
      · subst hk
        have hne : ¬ k₀ = k' := fun h' => h h'.symm
        simp [setField, lookupField, hne]
      · by_cases hk' : k₀ = k' <;> simp [setField, lookupField, hk, hk', ih, h]

/-! ## `cek/core.py` -/

namespace Core

/-- `cek.core.supported_languages`. -/
def supported_languages : List String := ["en", "ja", "ko"]

/-- `cek.core.validate_language`: raises `ValueError` for an unsupported
language code and returns the code otherwise. -/
def validate_language (lang : String) : Except PyErr String :=
  if lang ∈ supported_languages then .ok lang
  else .error (.valueError ("Lang: \"" ++ lang ++
    "\" is not supported. Currently supported languages are en, ja and ko."))

/-- `cek.core.SpeechBuilder`: holds the validated default language. -/
structure SpeechBuilder where
  default_language : String

namespace SpeechBuilder

/-- `SpeechBuilder.__init__`: validates the default language. -/
def make (default_language : String) : Except PyErr SpeechBuilder :=
  (validate_language default_language).map SpeechBuilder.mk

/-- `SpeechBuilder._speech_info`. -/
def _speech_info (type value : JVal) (language : String) : JVal :=
  .obj [("type", type), ("lang", .str language), ("value", value)]

/-- `SpeechBuilder.plain_text`: `language=None` falls back to the default
language; the language is validated. -/
def plain_text (b : SpeechBuilder) (message : JVal) (language : Option String) :
    Except PyErr JVal := do
  let lang := language.getD b.default_language
  let lang ← validate_language lang
  .ok (_speech_info (.str "PlainText") message lang)

/-- `SpeechBuilder.url`: no language validation, empty language field. -/
def url (_b : SpeechBuilder) (address : JVal) : JVal :=
  _speech_info (.str "URL") address ""

/-- `SpeechBuilder.simple_speech`. -/
def simple_speech (_b : SpeechBuilder) (speech_value : JVal) : JVal :=
  .obj [("type", .str "SimpleSpeech"), ("values", speech_value)]

/-- `SpeechBuilder.speech_list`. -/
def speech_list (_b : SpeechBuilder) (speech_values : List JVal) : JVal :=
  .obj [("type", .str "SpeechList"), ("values", .arr speech_values)]

/-- `SpeechBuilder.speech_set`: builds the `SpeechSet` dict directly, with
no validation of `brief` or `verbose`. -/
def speech_set (_b : SpeechBuilder) (brief verbose : JVal) : JVal :=
  .obj [("type", .str "SpeechSet"), ("brief", brief), ("verbose", verbose)]

end SpeechBuilder

/-- `cek.core.ResponseBuilder`. -/
structure ResponseBuilder where
  default_language : String
  speechBuilder : SpeechBuilder

namespace ResponseBuilder

/-- `ResponseBuilder.__init__`: validates the default language and creates
the inner `SpeechBuilder` with the same default language. -/
def make (default_language : String) : Except PyErr ResponseBuilder := do
  let lang ← validate_language default_language
  let sb ← SpeechBuilder.make default_language
  .ok ⟨lang, sb⟩

/-- `ResponseBuilder._template`. -/
def _template : JVal :=
  .obj [("version", .str "1.0"), ("sessionAttributes", .obj []),
        ("response", .obj [("outputSpeech", .obj []), ("card", .obj []),
                           ("directives", .arr []),
                           ("shouldEndSession", .bool true)])]

/-- The template with `outputSpeech` and `shouldEndSession` assigned, as
done by each response builder (in-place dict assignment keeps key order). -/
def filled_template (output_speech : JVal) (end_session : Bool) : JVal :=
  .obj [("version", .str "1.0"), ("sessionAttributes", .obj []),
        ("response", .obj [("outputSpeech", output_speech), ("card", .obj []),
                           ("directives", .arr []),
                           ("shouldEndSession", .bool end_session)])]

/-- `ResponseBuilder.simple_speech`. -/
def simple_speech (rb : ResponseBuilder) (speech_value : JVal) (end_session : Bool) : JVal :=
  filled_template (rb.speechBuilder.simple_speech speech_value) end_session

/-- `ResponseBuilder.simple_speech_text`. -/
def simple_speech_text (rb : ResponseBuilder) (message : JVal) (language : Option String)
    (end_session : Bool) : Except PyErr JVal := do
  let lang := language.getD rb.default_language
  let lang ← validate_language lang
  let speech_value ← rb.speechBuilder.plain_text message (some lang)
  .ok (rb.simple_speech speech_value end_session)

/-- `ResponseBuilder.speech_list`. -/
def speech_list (rb : ResponseBuilder) (speech_values : List JVal) (end_session : Bool) : JVal :=
  filled_template (rb.speechBuilder.speech_list speech_values) end_session

/-- `ResponseBuilder.speech_url`. -/
def speech_url (rb : ResponseBuilder) (message url : JVal) (language : Option String)
    (end_session : Bool) : Except PyErr JVal := do
  let lang := language.getD rb.default_language
  let lang ← validate_language lang
  let plain_text_value ← rb.speechBuilder.plain_text message (some lang)
  let url_object := rb.speechBuilder.url url
  .ok (rb.speech_list [plain_text_value, url_object] end_session)

/-- `ResponseBuilder.speech_set`. -/
def speech_set (rb : ResponseBuilder) (brief verbose : JVal) (end_session : Bool) : JVal :=
  filled_template (rb.speechBuilder.speech_set brief verbose) end_session

/-- `ResponseBuilder.add_reprompt`: mutates the response dict, setting
`response.shouldEndSession = False` and `response.reprompt`. -/
def add_reprompt (response speech : JVal) : Except PyErr JVal := do
  let output_speech : JVal := .obj [("outputSpeech", speech)]
  let inner ← response.getItem "response"
  let inner ← inner.setItem "shouldEndSession" (.bool false)
  let inner ← inner.setItem "reprompt" output_speech
  response.setItem "response" inner

end ResponseBuilder

/-- The `cek.core.Response.reprompt` property setter: same mutation as
`add_reprompt`. -/
def Response.set_reprompt (response value : JVal) : Except PyErr JVal := do
  let inner ← response.getItem "response"
  let inner ← inner.setItem "shouldEndSession" (.bool false)
  let inner ← inner.setItem "reprompt" (.obj [("outputSpeech", value)])
  response.setItem "response" inner

/-- `cek.core.AudioPlayer.offset`: `self._audio_player.get('offsetInMilliseconds', 0)`. -/
def AudioPlayer.offset (audio_player : JVal) : Except PyErr JVal :=
  audio_player.getD "offsetInMilliseconds" (.num 0)

/-- `cek.core.AudioPlayer.total`: `self._audio_player.get('totalInMilliseconds', 0)`. -/
def AudioPlayer.total (audio_player : JVal) : Except PyErr JVal :=
  audio_player.getD "totalInMilliseconds" (.num 0)

/-- `cek.core.AudioPlayer.activity`: `self._audio_player['playerActivity']`. -/
def AudioPlayer.activity (audio_player : JVal) : Except PyErr JVal :=
  audio_player.getItem "playerActivity"

/-- `cek.core.Context.audio_player`: the wrapped `AudioPlayer` dict when the
raw context has an `AudioPlayer` key, `None` otherwise.  (Non-dict contexts
raise at the membership test; only dict contexts occur in the claims.) -/
def Context.audio_player : JVal → Except PyErr (Option JVal)
  | .obj fields =>
      match lookupField fields "AudioPlayer" with
      | some a => .ok (some a)
      | none => .ok none
  | _ => .error (.typeError "argument of membership test is not a container")

/-- `cek.core.Session.attributes`: `self._session.setdefault('sessionAttributes', {})`.
Returns the attribute value together with the (possibly extended) session dict. -/
def Session.attributes (session : JVal) : Except PyErr (JVal × JVal) :=
  session.setdefault "sessionAttributes" (.obj [])

/-- Reading `request.session.attributes` on a request built from the decoded
object `rd`: `Session` aliases `rd['session']`, so the `setdefault` in
`Session.attributes` is a mutation of `rd` itself.  Returns the attribute
value together with the updated decoded object. -/
def Request.attributes_effect (rd : JVal) : Except PyErr (JVal × JVal) := do
  let session ← rd.getItem "session"
  let (value, session') ← Session.attributes session
  let rd' ← rd.setItem "session" session'
  .ok (value, rd')

/-- `cek.core.Request.type`: `self._request['type']` with
`self._request = request_dict['request']`. -/
def Request.type (rd : JVal) : Except PyErr JVal := do
  let req ← rd.getItem "request"
  req.getItem "type"

/-- `cek.core.Request.application_id`:
`self._context['System']['application']['applicationId']`. -/
def Request.application_id (rd : JVal) : Except PyErr JVal := do
  let ctx ← rd.getItem "context"
  let sys ← ctx.getItem "System"
  let app ← sys.getItem "application"
  app.getItem "applicationId"

/-- `cek.core.Request.verify_application_id`: raises `ApplicationIdMismatch`
unless the request's application id equals the expected one.  (A non-string
JSON value never equals a Python string.) -/
def Request.verify_application_id (rd : JVal) (application_id : String) :
    Except PyErr Unit := do
  let aid ← Request.application_id rd
  match aid with
  | .str s =>
      if s = application_id then .ok ()
      else .error (.applicationIdMismatch "Request contains wrong ApplicationId")
  | _ => .error (.applicationIdMismatch "Request contains wrong ApplicationId")

/-- `cek.core.IntentRequest.name`: `self._request['intent']['name']`. -/
def IntentRequest.name (rd : JVal) : Except PyErr JVal := do
  let req ← rd.getItem "request"
  let intent ← req.getItem "intent"
  intent.getItem "name"

/-- The dict comprehension `{slot_name: slots[slot_name]['value'] for
slot_name in slots}` over the entries of the slots dict: resolves each
slot to its `value` field in order. -/
def resolveSlots : List (String × JVal) → Except PyErr (List (String × JVal))
  | [] => .ok []
  | p :: rest => do
      let v ← p.2.getItem "value"
      let others ← resolveSlots rest
      .ok ((p.1, v) :: others)

/-- `cek.core.IntentRequest.slots_dict`:
`{slot_name: slots[slot_name]['value'] for slot_name in slots}` over
`self._request['intent']['slots']`.  Iterating a JSON `null` (Python `None`)
raises `TypeError`; an empty string or array iterates to an empty dict, a
non-empty one fails when indexed by its first element; numbers and booleans
are not iterable. -/
def IntentRequest.slots_dict (rd : JVal) : Except PyErr (List (String × JVal)) := do
  let req ← rd.getItem "request"
  let intent ← req.getItem "intent"
  let slots ← intent.getItem "slots"
  match slots with
  | .obj fields => resolveSlots fields
  | .null => .error (.typeError "NoneType object is not iterable")
  | .str s => if s = "" then .ok [] else .error (.typeError "string indices must be integers")
  | .arr [] => .ok []
  | .arr _ => .error (.typeError "list indices must be integers")
  | _ => .error (.typeError "object is not iterable")

/-- Python membership of a string in a JSON array: only a string element
can compare equal to it. -/
def listHasStr : List JVal → String → Bool
  | [], _ => false
  | .str t :: rest, s => s = t || listHasStr rest s
  | _ :: rest, s => listHasStr rest s

/-- `cek.core.IntentRequest.slot_value`: returns the slot value, or `None`
when the slots object is `None` or lacks the slot (falling off the end of
the function body).  Membership tests on numbers/booleans raise `TypeError`;
for strings and arrays a hit would fail at the subsequent indexing. -/
def IntentRequest.slot_value (rd : JVal) (slot_name : String) :
    Except PyErr (Option JVal) := do
  let req ← rd.getItem "request"
  let intent ← req.getItem "intent"
  let slots ← intent.getItem "slots"
  match slots with
  | .null => .ok none
  | .obj fields =>
      match lookupField fields slot_name with
      | some sv => (sv.getItem "value").map some
      | none => .ok none
  | .arr es =>
      if listHasStr es slot_name then .error (.typeError "list indices must be integers")
      else .ok none
  | .str s =>
      if (s.splitOn slot_name).length ≠ 1 then
        .error (.typeError "string indices must be integers")
      else .ok none
  | _ => .error (.typeError "argument of membership test is not a container")

/-- The request variants produced by the factory methods. -/
inductive RequestKind where
  | intent
  | event
  | launch
  | sessionEnded
  deriving DecidableEq, Repr

/-- A constructed request object: its variant and the decoded object it
wraps (all accessors read from the latter). -/
structure ParsedRequest where
  kind : RequestKind
  raw : JVal
  deriving Repr

/-- The field accesses performed by `cek.core.Request.__init__` (the flat
model): `request_dict['request']`, `['session']`, `['context']`,
`Session(request_dict['session'])` (which only stores), `['version']`. -/
def requestInitFlat (rd : JVal) : Except PyErr Unit := do
  let _ ← rd.getItem "request"
  let _ ← rd.getItem "session"
  let _ ← rd.getItem "context"
  let _ ← rd.getItem "session"
  let _ ← rd.getItem "version"
  .ok ()

/-- `cek.core.Request.from_dict`: classifies by `request_dict['request']['type']`
and constructs the matching variant (`SessionEndedRequest` maps to the
`EndRequest` class), raising `ValueError` for any other type. -/
def Request.from_dict (rd : JVal) : Except PyErr ParsedRequest := do
  let req ← rd.getItem "request"
  let ty ← req.getItem "type"
  match ty with
  | .str s =>
      if s = "IntentRequest" then do
        let _ ← requestInitFlat rd
        .ok ⟨.intent, rd⟩
      else if s = "EventRequest" then do
        let _ ← requestInitFlat rd
        .ok ⟨.event, rd⟩
      else if s = "LaunchRequest" then do
        let _ ← requestInitFlat rd
        .ok ⟨.launch, rd⟩
      else if s = "SessionEndedRequest" then do
        let _ ← requestInitFlat rd
        .ok ⟨.sessionEnded, rd⟩
      else .error (.valueError "Request Type not supported.")
  | _ => .error (.valueError "Request Type not supported.")

end Core

/-! ## `cek/core/models.py` (the delegated model) -/

namespace Models

/-- The field accesses performed by `cek.core.models.Request.__init__`:
as in the flat model, but `Session.__init__` eagerly builds
`User(session_dict['user'])`. -/
def requestInitModels (rd : JVal) : Except PyErr Unit := do
  let _ ← rd.getItem "request"
  let _ ← rd.getItem "session"
  let _ ← rd.getItem "context"
  let session ← rd.getItem "session"
  let _ ← session.getItem "user"
  let _ ← rd.getItem "version"
  .ok ()

/-- `cek.core.models.Request.create`: same classification as the flat
`from_dict` (the class keys hold the same four strings), but construction
eagerly reads `session['user']`, and `EventRequest.__init__` additionally
reads `self._request['event']`. -/
def Request.create (rd : JVal) : Except PyErr Core.ParsedRequest := do
  let req ← rd.getItem "request"
  let ty ← req.getItem "type"
  match ty with
  | .str s =>
      if s = "IntentRequest" then do
        let _ ← requestInitModels rd
        .ok ⟨.intent, rd⟩
      else if s = "EventRequest" then do
        let _ ← requestInitModels rd
        let req2 ← rd.getItem "request"
        let _ ← req2.getItem "event"
        .ok ⟨.event, rd⟩
      else if s = "LaunchRequest" then do
        let _ ← requestInitModels rd
        .ok ⟨.launch, rd⟩
      else if s = "SessionEndedRequest" then do
        let _ ← requestInitModels rd
        .ok ⟨.sessionEnded, rd⟩
      else .error (.valueError "Request Type not supported.")
  | _ => .error (.valueError "Request Type not supported.")

/-- `cek.core.models.IntentRequest.slots`: same comprehension as the flat
model's `slots_dict`. -/
def IntentRequest.slots (rd : JVal) : Except PyErr (List (String × JVal)) := do
  let req ← rd.getItem "request"
  let intent ← req.getItem "intent"
  let slots ← intent.getItem "slots"
  match slots with
  | .obj fields => Core.resolveSlots fields
  | .null => .error (.typeError "NoneType object is not iterable")
  | .str s => if s = "" then .ok [] else .error (.typeError "string indices must be integers")
  | .arr [] => .ok []
  | .arr _ => .error (.typeError "list indices must be integers")
  | _ => .error (.typeError "object is not iterable")

end Models

/-! ## The request handler (`RequestHandler` of `cek/core.py` and of
`cek/core/handler.py`)

Registration through the decorators only ever populates the keys
`'_default_'`, `'LaunchRequest'`, `'EventRequest'`, `'SessionEndedRequest'`
and the nested intent dict under `'IntentRequest'`, so the `_handlers` dict
is modelled as a record of those entries.  Handlers themselves are opaque
(`H`). -/

structure Handlers (H : Type) where
  default_handler : Option H
  launch : Option H
  event : Option H
  sessionEnded : Option H
  intents : List (String × H)

/-- Lookup in the nested intent dict `self._handlers['IntentRequest']`. -/
def lookupIntent {H : Type} (intents : List (String × H)) (name : String) : Option H :=
  (intents.find? (fun p => p.1 == name)).map (·.2)

/-- The shared body of `RequestHandler.route_request` after signature
verification and JSON decoding (identical in `cek/core.py` and
`cek/core/handler.py` up to the request factory used):

1. `handler_fn = self._handlers[self._default_key]` — a plain dict lookup,
   raising `KeyError` when no default handler was registered;
2. classify the request via the factory;
3. non-debug mode: `request.verify_application_id`;
4. an intent request with a registered intent-specific handler selects it,
   otherwise a registered type-level handler, otherwise `handler_fn`.

Returns the selected handler. -/
def route_dispatch {H : Type} (parse : JVal → Except PyErr Core.ParsedRequest)
    (handlers : Handlers H) (use_debug_mode : Bool) (application_id : String)
    (rd : JVal) : Except PyErr H := do
  let handler_fn ← match handlers.default_handler with
    | some f => Except.ok f
    | none => Except.error (PyErr.keyError "_default_")
  let request ← parse rd
  let _ ← if use_debug_mode then pure ()
          else Core.Request.verify_application_id rd application_id
  match request.kind with
  | .intent => do
      let nm ← Core.IntentRequest.name rd
      match nm with
      | .str s =>
          match lookupIntent handlers.intents s with
          | some f => .ok f
          | none => .ok handler_fn
      | _ => .ok handler_fn
  | .launch => .ok (handlers.launch.getD handler_fn)
  | .event => .ok (handlers.event.getD handler_fn)
  | .sessionEnded => .ok (handlers.sessionEnded.getD handler_fn)

/-- Python `str.lower()` (header names are ASCII). -/
def lowercase (s : String) : String := ⟨s.data.map Char.toLower⟩

/-- Lookup in `{key.lower(): value for key, value in request_header_dict.items()}`:
when several keys collide after lowercasing the later binding wins. -/
def header_lookup (headers : List (String × String)) (key : String) : Option String :=
  (headers.reverse.find? (fun p => lowercase p.1 == key)).map (·.2)

/-- `RequestHandler._verify_request` (identical in both files): lowercases
the header keys, reads the `signaturecek` entry (`KeyError` if absent),
base64-decodes it and verifies the signature over the body.  The base64
decoder and the RSA verification primitive are external collaborators,
passed as parameters; bytes are modelled as `List Nat`. -/
def _verify_request (verify : List Nat → List Nat → Bool)
    (b64decode : String → List Nat) (request_body : List Nat)
    (request_header_dict : List (String × String)) : Except PyErr Unit :=
  match header_lookup request_header_dict "signaturecek" with
  | none => .error (.keyError "signaturecek")
  | some signature_base64 =>
      let signature := b64decode signature_base64
      if verify signature request_body then .ok () else .error .invalidSignature

/-- `cek.core.RequestHandler.route_request`: verification (skipped in debug
mode), then UTF-8 decode + `json.loads` (the `json_loads` parameter), then
the dispatch body over `Request.from_dict`. -/
def Core.RequestHandler.route_request {H : Type}
    (verify : List Nat → List Nat → Bool) (b64decode : String → List Nat)
    (json_loads : List Nat → Except PyErr JVal)
    (handlers : Handlers H) (use_debug_mode : Bool) (application_id : String)
    (request_body : List Nat) (request_header_dict : List (String × String)) :
    Except PyErr H := do
  let _ ← if use_debug_mode then pure ()
          else _verify_request verify b64decode request_body request_header_dict
  let rd ← json_loads request_body
  route_dispatch Core.Request.from_dict handlers use_debug_mode application_id rd

/-- `cek.core.handler.RequestHandler.route_request`: identical, but over
`cek.core.models.Request.create`. -/
def CoreHandler.RequestHandler.route_request {H : Type}
    (verify : List Nat → List Nat → Bool) (b64decode : String → List Nat)
    (json_loads : List Nat → Except PyErr JVal)
    (handlers : Handlers H) (use_debug_mode : Bool) (application_id : String)
    (request_body : List Nat) (request_header_dict : List (String × String)) :
    Except PyErr H := do
  let _ ← if use_debug_mode then pure ()
          else _verify_request verify b64decode request_body request_header_dict
  let rd ← json_loads request_body
  route_dispatch Models.Request.create handlers use_debug_mode application_id rd

/-! ## `cek/core/handler.py` builder classes

`cek/core/handler.py` contains its own `SpeechBuilder` and `ResponseBuilder`
classes, textually duplicating the ones of `cek/core.py`; they are embedded
separately for the equivalence claim. -/

namespace CoreHandler

/-- `cek.core.handler.supported_languages`. -/
def supported_languages : List String := ["en", "ja", "ko"]

/-- `cek.core.handler.validate_language`. -/
def validate_language (lang : String) : Except PyErr String :=
  if lang ∈ supported_languages then .ok lang
  else .error (.valueError ("Lang: \"" ++ lang ++
    "\" is not supported. Currently supported languages are en, ja and ko."))

/-- `cek.core.handler.SpeechBuilder`. -/
structure SpeechBuilder where
  default_language : String

namespace SpeechBuilder

/-- `SpeechBuilder.__init__` of `cek/core/handler.py`. -/
def make (default_language : String) : Except PyErr SpeechBuilder :=
  (validate_language default_language).map SpeechBuilder.mk

/-- `SpeechBuilder._speech_info` of `cek/core/handler.py`. -/
def _speech_info (type value : JVal) (language : String) : JVal :=
  .obj [("type", type), ("lang", .str language), ("value", value)]

/-- `SpeechBuilder.plain_text` of `cek/core/handler.py`. -/
def plain_text (b : SpeechBuilder) (message : JVal) (language : Option String) :
    Except PyErr JVal := do
  let lang := language.getD b.default_language
  let lang ← validate_language lang
  .ok (_speech_info (.str "PlainText") message lang)

/-- `SpeechBuilder.url` of `cek/core/handler.py`. -/
def url (_b : SpeechBuilder) (address : JVal) : JVal :=
  _speech_info (.str "URL") address ""

/-- `SpeechBuilder.simple_speech` of `cek/core/handler.py`. -/
def simple_speech (_b : SpeechBuilder) (speech_value : JVal) : JVal :=
  .obj [("type", .str "SimpleSpeech"), ("values", speech_value)]

/-- `SpeechBuilder.speech_list` of `cek/core/handler.py`. -/
def speech_list (_b : SpeechBuilder) (speech_values : List JVal) : JVal :=
  .obj [("type", .str "SpeechList"), ("values", .arr speech_values)]

/-- `SpeechBuilder.speech_set` of `cek/core/handler.py`. -/
def speech_set (_b : SpeechBuilder) (brief verbose : JVal) : JVal :=
  .obj [("type", .str "SpeechSet"), ("brief", brief), ("verbose", verbose)]

end SpeechBuilder

/-- `cek.core.handler.ResponseBuilder`. -/
structure ResponseBuilder where
  default_language : String
  speechBuilder : SpeechBuilder

namespace ResponseBuilder

/-- `ResponseBuilder.__init__` of `cek/core/handler.py`. -/
def make (default_language : String) : Except PyErr ResponseBuilder := do
  let lang ← validate_language default_language
  let sb ← SpeechBuilder.make default_language
  .ok ⟨lang, sb⟩

/-- `ResponseBuilder._template` of `cek/core/handler.py`, with the
`outputSpeech` and `shouldEndSession` assignments applied. -/
def filled_template (output_speech : JVal) (end_session : Bool) : JVal :=
  .obj [("version", .str "1.0"), ("sessionAttributes", .obj []),
        ("response", .obj [("outputSpeech", output_speech), ("card", .obj []),
                           ("directives", .arr []),
                           ("shouldEndSession", .bool end_session)])]

/-- `ResponseBuilder.simple_speech` of `cek/core/handler.py`. -/
def simple_speech (rb : ResponseBuilder) (speech_value : JVal) (end_session : Bool) : JVal :=
  filled_template (rb.speechBuilder.simple_speech speech_value) end_session

/-- `ResponseBuilder.simple_speech_text` of `cek/core/handler.py`. -/
def simple_speech_text (rb : ResponseBuilder) (message : JVal) (language : Option String)
    (end_session : Bool) : Except PyErr JVal := do
  let lang := language.getD rb.default_language
  let lang ← validate_language lang
  let speech_value ← rb.speechBuilder.plain_text message (some lang)
  .ok (rb.simple_speech speech_value end_session)

/-- `ResponseBuilder.speech_list` of `cek/core/handler.py`. -/
def speech_list (rb : ResponseBuilder) (speech_values : List JVal) (end_session : Bool) : JVal :=
  filled_template (rb.speechBuilder.speech_list speech_values) end_session

/-- `ResponseBuilder.speech_url` of `cek/core/handler.py`. -/
def speech_url (rb : ResponseBuilder) (message url : JVal) (language : Option String)
    (end_session : Bool) : Except PyErr JVal := do
  let lang := language.getD rb.default_language
  let lang ← validate_language lang
  let plain_text_value ← rb.speechBuilder.plain_text message (some lang)
  let url_object := rb.speechBuilder.url url
  .ok (rb.speech_list [plain_text_value, url_object] end_session)

/-- `ResponseBuilder.speech_set` of `cek/core/handler.py`. -/
def speech_set (rb : ResponseBuilder) (brief verbose : JVal) (end_session : Bool) : JVal :=
  filled_template (rb.speechBuilder.speech_set brief verbose) end_session

/-- `ResponseBuilder.add_reprompt` of `cek/core/handler.py`. -/
def add_reprompt (response speech : JVal) : Except PyErr JVal := do
  let output_speech : JVal := .obj [("outputSpeech", speech)]
  let inner ← response.getItem "response"
  let inner ← inner.setItem "shouldEndSession" (.bool false)
  let inner ← inner.setItem "reprompt" output_speech
  response.setItem "response" inner

end ResponseBuilder

end CoreHandler

/-! ## `cek/clova.py` -/

namespace Clova

/-- The closed union of message-like inputs accepted by `Clova.response`:
plain strings, `Message`, `URL`, lists of those, and `MessageSet`. -/
inductive CMessage where
  | str (s : String)
  | message (text : String) (language : Option String)
  | url (address : String)
  | list (messages : List CMessage)
  | messageSet (brief verbose : CMessage)

/-- `Clova._response_value`: resolves `Message`/`str`/`URL` to a speech
value and raises `TypeError` for anything else. -/
def _response_value (b : Core.SpeechBuilder) : CMessage → Except PyErr JVal
  | .message text language => b.plain_text (.str text) language
  | .str s => b.plain_text (.str s) none
  | .url address => .ok (b.url (.str address))
  | _ => .error (.typeError "Unsupported type found in Message")

/-- `Clova._response_values`: resolves each element of a list. -/
def _response_values (b : Core.SpeechBuilder) (messages : List CMessage) :
    Except PyErr (List JVal) :=
  messages.mapM (_response_value b)

/-- `Clova._response_speech`: the message normalization used for reprompts
(and, with the same structure, inline in `Clova.response`).  For a
`MessageSet`, the brief is resolved first; a `verbose` that is itself a
`MessageSet` reaches `_response_value` and raises `TypeError`. -/
def _response_speech (b : Core.SpeechBuilder) : CMessage → Except PyErr JVal
  | .list messages => (_response_values b messages).map b.speech_list
  | .messageSet brief verbose => do
      let brief_value ← _response_value b brief
      let verbose_speech ←
        match verbose with
        | .list vs => (_response_values b vs).map b.speech_list
        | v => (_response_value b v).map b.simple_speech
      .ok (b.speech_set brief_value verbose_speech)
  | m => (_response_value b m).map b.simple_speech

/-- `Clova.__init__`: builds the `SpeechBuilder` and `ResponseBuilder` with
the given default language (each validating it); the `RequestHandler` does
not involve the language. -/
def make (_application_id : String) (default_language : String) (_debug_mode : Bool) :
    Except PyErr (Core.SpeechBuilder × Core.ResponseBuilder) := do
  let sb ← Core.SpeechBuilder.make default_language
  let rb ← Core.ResponseBuilder.make default_language
  .ok (sb, rb)

end Clova

/-! ## Claim theorems -/

/-- C6: for every language code not in {en, ja, ko}, every speech-building
operation that accepts a language (`SpeechBuilder.plain_text`,
`ResponseBuilder.simple_speech_text`, `ResponseBuilder.speech_url`, and the
`default_language` constructor parameters of `SpeechBuilder`,
`ResponseBuilder` and `Clova`) fails with a `ValueError` and produces no
speech value or response. -/
theorem c6_invalid_language (lang : String) (h : lang ∉ Core.supported_languages) :
    Core.validate_language lang
      = .error (.valueError ("Lang: \"" ++ lang ++
          "\" is not supported. Currently supported languages are en, ja and ko."))
    ∧ (∀ b m, Core.SpeechBuilder.plain_text b m (some lang)
        = .error (.valueError ("Lang: \"" ++ lang ++
            "\" is not supported. Currently supported languages are en, ja and ko.")))
    ∧ (∀ rb m es, Core.ResponseBuilder.simple_speech_text rb m (some lang) es
        = .error (.valueError ("Lang: \"" ++ lang ++
            "\" is not supported. Currently supported languages are en, ja and ko.")))
    ∧ (∀ rb m u es, Core.ResponseBuilder.speech_url rb m u (some lang) es
        = .error (.valueError ("Lang: \"" ++ lang ++
            "\" is not supported. Currently supported languages are en, ja and ko.")))
    ∧ Core.SpeechBuilder.make lang
      = .error (.valueError ("Lang: \"" ++ lang ++
          "\" is not supported. Currently supported languages are en, ja and ko."))
    ∧ Core.ResponseBuilder.make lang
      = .error (.valueError ("Lang: \"" ++ lang ++
          "\" is not supported. Currently supported languages are en, ja and ko."))
    ∧ (∀ aid dbg, Clova.make aid lang dbg
        = .error (.valueError ("Lang: \"" ++ lang ++
            "\" is not supported. Currently supported languages are en, ja and ko."))) := by
  have hv : Core.validate_language lang
      = .error (.valueError ("Lang: \"" ++ lang ++
          "\" is not supported. Currently supported languages are en, ja and ko.")) := by
    simp [Core.validate_language, h]
  refine ⟨hv, ?_, ?_, ?_, ?_, ?_, ?_⟩
  · intro b m
    simp [Core.SpeechBuilder.plain_text, hv]
  · intro rb m es
    simp [Core.ResponseBuilder.simple_speech_text, hv]
  · intro rb m u es
    simp [Core.ResponseBuilder.speech_url, hv]
  · simp [Core.SpeechBuilder.make, hv]
  · simp [Core.ResponseBuilder.make, hv]
  · intro aid dbg
    simp [Clova.make, Core.SpeechBuilder.make, hv]

/-- Witness for C6 at the concrete unsupported language "fr". -/
theorem c6_witness :
    "fr" ∉ Core.supported_languages
    ∧ Core.validate_language "fr"
      = .error (.valueError ("Lang: \"fr\" is not supported. Currently supported languages are en, ja and ko."))
    ∧ Core.SpeechBuilder.make "fr"
      = .error (.valueError ("Lang: \"fr\" is not supported. Currently supported languages are en, ja and ko.")) :=
  ⟨by decide, (c6_invalid_language "fr" (by decide)).1,
    (c6_invalid_language "fr" (by decide)).2.2.2.2.1⟩

/-- C5: `add_reprompt` (in both builder files) and the `Response.reprompt`
setter set `response.shouldEndSession` to `false` and `response.reprompt`
to `{outputSpeech: speech}`, regardless of the prior contents of the inner
response dict (in particular of a prior `shouldEndSession = true`). -/
theorem c5_add_reprompt (fs gs : List (String × JVal)) (speech : JVal)
    (h : lookupField fs "response" = some (.obj gs)) :
    Core.ResponseBuilder.add_reprompt (.obj fs) speech
      = .ok (.obj (setField fs "response"
          (.obj (setField (setField gs "shouldEndSession" (.bool false))
                  "reprompt" (.obj [("outputSpeech", speech)])))))
    ∧ Core.Response.set_reprompt (.obj fs) speech
      = Core.ResponseBuilder.add_reprompt (.obj fs) speech
    ∧ CoreHandler.ResponseBuilder.add_reprompt (.obj fs) speech
      = Core.ResponseBuilder.add_reprompt (.obj fs) speech
    ∧ lookupField (setField (setField gs "shouldEndSession" (.bool false))
          "reprompt" (.obj [("outputSpeech", speech)])) "shouldEndSession"
      = some (.bool false)
    ∧ lookupField (setField (setField gs "shouldEndSession" (.bool false))
          "reprompt" (.obj [("outputSpeech", speech)])) "reprompt"
      = some (.obj [("outputSpeech", speech)]) := by
  refine ⟨?_, rfl, rfl, ?_, ?_⟩
  · simp [Core.ResponseBuilder.add_reprompt, JVal.getItem, JVal.setItem, h]
  · rw [lookupField_setField_ne _ _ _ _ (by decide)]
    exact lookupField_setField_self _ _ _
  · exact lookupField_setField_self _ _ _

/-- Witness for C5: adding a reprompt to a response whose
`shouldEndSession` is `true` flips it to `false` and installs the reprompt. -/
theorem c5_witness :
    Core.ResponseBuilder.add_reprompt
        (.obj [("version", .str "1.0"), ("sessionAttributes", .obj []),
               ("response", .obj [("outputSpeech", .obj []), ("card", .obj []),
                                  ("directives", .arr []),
                                  ("shouldEndSession", .bool true)])])
        (.str "speech")
      = .ok (.obj [("version", .str "1.0"), ("sessionAttributes", .obj []),
               ("response", .obj [("outputSpeech", .obj []), ("card", .obj []),
                                  ("directives", .arr []),
                                  ("shouldEndSession", .bool false),
                                  ("reprompt", .obj [("outputSpeech", .str "speech")])])]) := by
  have := (c5_add_reprompt
      [("version", .str "1.0"), ("sessionAttributes", .obj []),
       ("response", .obj [("outputSpeech", .obj []), ("card", .obj []),
                          ("directives", .arr []),
                          ("shouldEndSession", .bool true)])]
      [("outputSpeech", .obj []), ("card", .obj []), ("directives", .arr []),
       ("shouldEndSession", .bool true)]
      (.str "speech") rfl).1
  simpa [setField] using this

/-- C8: `context.audio_player` yields `None` exactly when the raw context
lacks an `AudioPlayer` key; when present, `offset` and `total` default to 0
for missing sub-fields and `activity` returns the `playerActivity` value;
in particular for the partial dict `{"playerActivity": "STOPPED"}`. -/
theorem c8_audio_player (fields gs : List (String × JVal)) :
    (Core.Context.audio_player (.obj fields) = .ok none
        ↔ lookupField fields "AudioPlayer" = none)
    ∧ (∀ a, lookupField fields "AudioPlayer" = some a →
        Core.Context.audio_player (.obj fields) = .ok (some a))
    ∧ (lookupField gs "offsetInMilliseconds" = none →
        Core.AudioPlayer.offset (.obj gs) = .ok (.num 0))
    ∧ (lookupField gs "totalInMilliseconds" = none →
        Core.AudioPlayer.total (.obj gs) = .ok (.num 0))
    ∧ (∀ v, lookupField gs "playerActivity" = some v →
        Core.AudioPlayer.activity (.obj gs) = .ok v)
    ∧ Core.AudioPlayer.offset (.obj [("playerActivity", .str "STOPPED")]) = .ok (.num 0)
    ∧ Core.AudioPlayer.total (.obj [("playerActivity", .str "STOPPED")]) = .ok (.num 0)
    ∧ Core.AudioPlayer.activity (.obj [("playerActivity", .str "STOPPED")])
      = .ok (.str "STOPPED") := by
  refine ⟨?_, ?_, ?_, ?_, ?_, rfl, rfl, rfl⟩
  · cases h : lookupField fields "AudioPlayer" <;>
      simp [Core.Context.audio_player, h]
  · intro a ha
    simp [Core.Context.audio_player, ha]
  · intro h0
    simp [Core.AudioPlayer.offset, JVal.getD, h0]
  · intro h0
    simp [Core.AudioPlayer.total, JVal.getD, h0]
  · intro v hv
    simp [Core.AudioPlayer.activity, JVal.getItem, hv]

/-- Witness for C8: a context without an AudioPlayer key yields no audio
player; a context with the partial AudioPlayer dict yields it, with
offset 0, total 0 and activity "STOPPED". -/
theorem c8_witness :
    Core.Context.audio_player (.obj [("System", .obj [])]) = .ok none
    ∧ Core.Context.audio_player
        (.obj [("AudioPlayer", .obj [("playerActivity", .str "STOPPED")])])
      = .ok (some (.obj [("playerActivity", .str "STOPPED")]))
    ∧ Core.AudioPlayer.offset (.obj [("playerActivity", .str "STOPPED")]) = .ok (.num 0) :=
  ⟨(c8_audio_player [("System", .obj [])] []).1.mpr rfl,
   (c8_audio_player [("AudioPlayer", .obj [("playerActivity", .str "STOPPED")])] []).2.1
     _ rfl,
   (c8_audio_player [] [("playerActivity", .str "STOPPED")]).2.2.2.2.2.1⟩

/-- C7: the request factories classify by `request.type`: the four known
type strings produce the matching variant (given the constructor's field
accesses succeed), any other type string — and any non-string type value —
fails with `ValueError` before any handler runs. -/
theorem c7_request_factory (rd req : JVal) (s : String)
    (hreq : rd.getItem "request" = .ok req)
    (hty : req.getItem "type" = .ok (.str s)) :
    (Core.requestInitFlat rd = .ok () →
        (s = "IntentRequest" → Core.Request.from_dict rd = .ok ⟨.intent, rd⟩)
        ∧ (s = "EventRequest" → Core.Request.from_dict rd = .ok ⟨.event, rd⟩)
        ∧ (s = "LaunchRequest" → Core.Request.from_dict rd = .ok ⟨.launch, rd⟩)
        ∧ (s = "SessionEndedRequest" → Core.Request.from_dict rd = .ok ⟨.sessionEnded, rd⟩))
    ∧ (s ∉ ["IntentRequest", "EventRequest", "LaunchRequest", "SessionEndedRequest"] →
        Core.Request.from_dict rd = .error (.valueError "Request Type not supported.")
        ∧ Models.Request.create rd = .error (.valueError "Request Type not supported."))
    ∧ (Models.requestInitModels rd = .ok () →
        (s = "IntentRequest" → Models.Request.create rd = .ok ⟨.intent, rd⟩)
        ∧ (s = "EventRequest" → ∀ e, req.getItem "event" = .ok e →
            Models.Request.create rd = .ok ⟨.event, rd⟩)
        ∧ (s = "LaunchRequest" → Models.Request.create rd = .ok ⟨.launch, rd⟩)
        ∧ (s = "SessionEndedRequest" → Models.Request.create rd = .ok ⟨.sessionEnded, rd⟩))
    ∧ (∀ rd' req' t, rd'.getItem "request" = .ok req' → req'.getItem "type" = .ok t →
        (∀ s', t ≠ .str s') →
        Core.Request.from_dict rd' = .error (.valueError "Request Type not supported.")) := by
  refine ⟨?_, ?_, ?_, ?_⟩
  · intro hinit
    refine ⟨?_, ?_, ?_, ?_⟩ <;> (rintro rfl; simp [Core.Request.from_dict, hreq, hty, hinit])
  · intro hs
    simp only [List.mem_cons, List.mem_singleton] at hs
    push_neg at hs
    obtain ⟨h1, h2, h3, h4⟩ := hs
    constructor
    · simp [Core.Request.from_dict, hreq, hty, h1, h2, h3, h4]
    · simp [Models.Request.create, hreq, hty, h1, h2, h3, h4]
  · intro hinit
    refine ⟨?_, ?_, ?_, ?_⟩
    · rintro rfl; simp [Models.Request.create, hreq, hty, hinit]
    · rintro rfl e he; simp [Models.Request.create, hreq, hty, hinit, he]
    · rintro rfl; simp [Models.Request.create, hreq, hty, hinit]
    · rintro rfl; simp [Models.Request.create, hreq, hty, hinit]
  · intro rd' req' t hreq' hty' hns
    cases t with
    | str s' => exact absurd rfl (hns s')
    | null => simp [Core.Request.from_dict, hreq', hty']
    | bool b => simp [Core.Request.from_dict, hreq', hty']
    | num n => simp [Core.Request.from_dict, hreq', hty']
    | arr es => simp [Core.Request.from_dict, hreq', hty']
    | obj fsx => simp [Core.Request.from_dict, hreq', hty']

/-- Witness for C7: a concrete request of each classification outcome. -/
theorem c7_witness :
    Core.Request.from_dict
        (.obj [("version", .str "1.0"), ("session", .obj []), ("context", .obj []),
               ("request", .obj [("type", .str "LaunchRequest")])])
      = .ok ⟨.launch, .obj [("version", .str "1.0"), ("session", .obj []),
               ("context", .obj []), ("request", .obj [("type", .str "LaunchRequest")])]⟩
    ∧ Core.Request.from_dict
        (.obj [("version", .str "1.0"), ("session", .obj []), ("context", .obj []),
               ("request", .obj [("type", .str "WeirdRequest")])])
      = .error (.valueError "Request Type not supported.") := by
  constructor
  · exact ((c7_request_factory
      (.obj [("version", .str "1.0"), ("session", .obj []), ("context", .obj []),
             ("request", .obj [("type", .str "LaunchRequest")])])
      (.obj [("type", .str "LaunchRequest")]) "LaunchRequest" rfl rfl).1 rfl).2.2.1 rfl
  · exact ((c7_request_factory
      (.obj [("version", .str "1.0"), ("session", .obj []), ("context", .obj []),
             ("request", .obj [("type", .str "WeirdRequest")])])
      (.obj [("type", .str "WeirdRequest")]) "WeirdRequest" rfl rfl).2.1 (by decide)).1

/-- C10: in non-debug mode, when no header key lowercases to
"signaturecek", `route_request` fails with `KeyError` — for every body,
JSON decoder and handler table, i.e. before the body is decoded, before
classification and before any handler; when the header is present, its
value is base64-decoded and the decoded bytes are what the verification
primitive receives. -/
theorem c10_signature_header {H : Type} (tbl : Handlers H)
    (verify : List Nat → List Nat → Bool) (b64decode : String → List Nat)
    (json_loads : List Nat → Except PyErr JVal) (app : String)
    (body : List Nat) (headers : List (String × String)) :
    ((∀ p ∈ headers, lowercase p.1 ≠ "signaturecek") →
        Core.RequestHandler.route_request verify b64decode json_loads tbl false app
            body headers
          = .error (.keyError "signaturecek")
        ∧ CoreHandler.RequestHandler.route_request verify b64decode json_loads tbl false app
            body headers
          = .error (.keyError "signaturecek"))
    ∧ (∀ v, header_lookup headers "signaturecek" = some v →
        _verify_request verify b64decode body headers
          = if verify (b64decode v) body then .ok () else .error .invalidSignature) := by
  constructor
  · intro habs
    have hnone : header_lookup headers "signaturecek" = none := by
      have : headers.reverse.find? (fun p => lowercase p.1 == "signaturecek") = none := by
        rw [List.find?_eq_none]
        intro p hp
        simp only [beq_iff_eq]
        exact habs p (List.mem_reverse.mp hp)
      simp [header_lookup, this]
    have hver : _verify_request verify b64decode body headers
        = .error (.keyError "signaturecek") := by
      simp [_verify_request, hnone]
    constructor
    · simp [Core.RequestHandler.route_request, hver]
    · simp [CoreHandler.RequestHandler.route_request, hver]
  · intro v hv
    simp [_verify_request, hv]

/-- Witness for C10: concrete headers without any SignatureCEK key fail
with `KeyError`; with the header present, verification receives the
base64-decoded value. -/
theorem c10_witness :
    (∀ p ∈ ([("Content-Type", "application/json")] : List (String × String)),
        lowercase p.1 ≠ "signaturecek")
    ∧ Core.RequestHandler.route_request (fun _ _ => true) (fun _ => [0])
        (fun _ => .ok .null) (⟨some 0, none, none, none, []⟩ : Handlers Nat) false ""
        [1, 2] [("Content-Type", "application/json")]
      = .error (.keyError "signaturecek")
    ∧ _verify_request (fun sig _ => sig == [7]) (fun _ => [7]) [1, 2]
        [("SignatureCEK", "sig")]
      = .ok () := by
  refine ⟨by decide, ?_, ?_⟩
  · exact ((c10_signature_header (⟨some 0, none, none, none, []⟩ : Handlers Nat)
      (fun _ _ => true) (fun _ => [0]) (fun _ => .ok .null) "" [1, 2]
      [("Content-Type", "application/json")]).1 (by decide)).1
  · have h := (c10_signature_header (⟨some 0, none, none, none, []⟩ : Handlers Nat)
      (fun sig _ => sig == [7]) (fun _ => [7]) (fun _ => .ok .null) "" [1, 2]
      [("SignatureCEK", "sig")]).2 "sig" (by decide)
    simpa using h

/-- C1 counterexample: `route_request` reads
`self._handlers[self._default_key]` before looking for a specific handler,
so with an intent-specific handler registered for "TurnOn" but no default
handler, a well-formed "TurnOn" intent request is not dispatched to the
registered handler — the lookup fails with `KeyError('_default_')`. -/
theorem c1_counterexample :
    route_dispatch Core.Request.from_dict
        (⟨none, none, none, none, [("TurnOn", 0)]⟩ : Handlers Nat) true ""
        (.obj [("version", .str "1.0"), ("session", .obj []), ("context", .obj []),
               ("request", .obj [("type", .str "IntentRequest"),
                 ("intent", .obj [("name", .str "TurnOn"), ("slots", .obj [])])])])
      = .error (.keyError "_default_")
    ∧ route_dispatch Core.Request.from_dict
        (⟨none, none, none, none, [("TurnOn", 0)]⟩ : Handlers Nat) true ""
        (.obj [("version", .str "1.0"), ("session", .obj []), ("context", .obj []),
               ("request", .obj [("type", .str "IntentRequest"),
                 ("intent", .obj [("name", .str "TurnOn"), ("slots", .obj [])])])])
      ≠ .ok 0 := by
  refine ⟨rfl, ?_⟩
  intro h
  rw [show route_dispatch Core.Request.from_dict
        (⟨none, none, none, none, [("TurnOn", 0)]⟩ : Handlers Nat) true ""
        (.obj [("version", .str "1.0"), ("session", .obj []), ("context", .obj []),
               ("request", .obj [("type", .str "IntentRequest"),
                 ("intent", .obj [("name", .str "TurnOn"), ("slots", .obj [])])])])
      = .error (.keyError "_default_") from rfl] at h
  exact Except.noConfusion h

/-- C1 (amended): when a default handler is registered, dispatch follows
the claimed precedence — a registered intent-specific handler first, then a
registered type-level handler, then the default; when no default handler is
registered, `route_request` fails with `KeyError('_default_')` for every
request, even one whose intent-specific or type-level handler is
registered, so no handler is dispatched. -/
theorem c1_route_precedence {H : Type} (tbl : Handlers H) (d : H) (app : String)
    (rd : JVal) :
    (tbl.default_handler = none →
        ∀ dbg, route_dispatch Core.Request.from_dict tbl dbg app rd
          = .error (.keyError "_default_"))
    ∧ (tbl.default_handler = some d →
        ∀ pr, Core.Request.from_dict rd = .ok pr →
          (pr.kind = .intent →
              (∀ s f, Core.IntentRequest.name rd = .ok (.str s) →
                  lookupIntent tbl.intents s = some f →
                  route_dispatch Core.Request.from_dict tbl true app rd = .ok f)
              ∧ (∀ s, Core.IntentRequest.name rd = .ok (.str s) →
                  lookupIntent tbl.intents s = none →
                  route_dispatch Core.Request.from_dict tbl true app rd = .ok d))
          ∧ (pr.kind = .launch →
              route_dispatch Core.Request.from_dict tbl true app rd
                = .ok (tbl.launch.getD d))
          ∧ (pr.kind = .event →
              route_dispatch Core.Request.from_dict tbl true app rd
                = .ok (tbl.event.getD d))
          ∧ (pr.kind = .sessionEnded →
              route_dispatch Core.Request.from_dict tbl true app rd
                = .ok (tbl.sessionEnded.getD d))) := by
  constructor
  · intro hnone dbg
    simp [route_dispatch, hnone]
  · intro hsome pr hpr
    obtain ⟨k, raw⟩ := pr
    refine ⟨?_, ?_, ?_, ?_⟩
    · rintro rfl
      constructor
      · intro s f hname hint
        simp [route_dispatch, hsome, hpr, hname, hint]
      · intro s hname hint
        simp [route_dispatch, hsome, hpr, hname, hint]
    · rintro rfl
      simp [route_dispatch, hsome, hpr]
    · rintro rfl
      simp [route_dispatch, hsome, hpr]
    · rintro rfl
      simp [route_dispatch, hsome, hpr]

/-- Witness for C1: with a default handler registered, a "TurnOn" intent
request selects the intent-specific handler and a launch request with no
launch handler falls back to the default. -/
theorem c1_witness :
    route_dispatch Core.Request.from_dict
        (⟨some 7, none, none, none, [("TurnOn", 3)]⟩ : Handlers Nat) true ""
        (.obj [("version", .str "1.0"), ("session", .obj []), ("context", .obj []),
               ("request", .obj [("type", .str "IntentRequest"),
                 ("intent", .obj [("name", .str "TurnOn"), ("slots", .obj [])])])])
      = .ok 3
    ∧ route_dispatch Core.Request.from_dict
        (⟨some 7, none, none, none, [("TurnOn", 3)]⟩ : Handlers Nat) true ""
        (.obj [("version", .str "1.0"), ("session", .obj []), ("context", .obj []),
               ("request", .obj [("type", .str "LaunchRequest")])])
      = .ok 7 := by
  constructor
  · exact (((c1_route_precedence
      (⟨some 7, none, none, none, [("TurnOn", 3)]⟩ : Handlers Nat) 7 ""
      (.obj [("version", .str "1.0"), ("session", .obj []), ("context", .obj []),
             ("request", .obj [("type", .str "IntentRequest"),
               ("intent", .obj [("name", .str "TurnOn"), ("slots", .obj [])])])])).2
      rfl ⟨.intent, _⟩ rfl).1 rfl).1 "TurnOn" 3 rfl rfl
  · have h := (((c1_route_precedence
      (⟨some 7, none, none, none, [("TurnOn", 3)]⟩ : Handlers Nat) 7 ""
      (.obj [("version", .str "1.0"), ("session", .obj []), ("context", .obj []),
             ("request", .obj [("type", .str "LaunchRequest")])])).2
      rfl ⟨.launch, _⟩ rfl).2.1 rfl)
    simpa using h

/-- Under the hypotheses that the session contains a `user` entry and that
an `EventRequest` contains an `event` entry, the delegated factory
`Models.Request.create` agrees with the flat `Core.Request.from_dict`. -/
theorem requestInitModels_eq_flat (rd sess user : JVal)
    (hsess : rd.getItem "session" = .ok sess)
    (huser : sess.getItem "user" = .ok user) :
    Models.requestInitModels rd = Core.requestInitFlat rd := by
  unfold Models.requestInitModels Core.requestInitFlat
  cases hreq : rd.getItem "request" <;> simp [hreq, hsess, huser]

theorem create_eq_from_dict (rd sess user : JVal)
    (hsess : rd.getItem "session" = .ok sess)
    (huser : sess.getItem "user" = .ok user)
    (hev : ∀ req, rd.getItem "request" = .ok req →
        req.getItem "type" = .ok (.str "EventRequest") →
        ∃ e, req.getItem "event" = .ok e) :
    Models.Request.create rd = Core.Request.from_dict rd := by
  have hinit := requestInitModels_eq_flat rd sess user hsess huser
  unfold Models.Request.create Core.Request.from_dict
  cases hreq : rd.getItem "request" with
  | error e => simp
  | ok req =>
      simp only [except_bind_ok]
      cases hty : req.getItem "type" with
      | error e => simp
      | ok ty =>
          simp only [except_bind_ok]
          cases ty with
          | str s =>
              by_cases h1 : s = "IntentRequest"
              · subst h1; simp [hinit]
              · by_cases h2 : s = "EventRequest"
                · subst h2
                  obtain ⟨e, he⟩ := hev req hreq hty
                  cases hok : Core.requestInitFlat rd <;>
                    simp [h1, hinit, hok, hreq, he]
                · by_cases h3 : s = "LaunchRequest"
                  · subst h3; simp [h1, h2, hinit]
                  · by_cases h4 : s = "SessionEndedRequest"
                    · subst h4; simp [h1, h2, h3, hinit]
                    · simp [h1, h2, h3, h4]
          | null => rfl
          | bool b => rfl
          | num n => rfl
          | arr es => rfl
          | obj fsx => rfl

/-- C9 counterexample: the two `route_request` implementations do not raise
the same errors on every body.  On a launch request whose session lacks a
`user` entry, the flat implementation dispatches to the default handler
while the delegated one fails with `KeyError('user')` (raised eagerly by
`Session.__init__` in `cek/core/models.py`). -/
theorem c9_counterexample :
    Core.RequestHandler.route_request (fun _ _ => true) (fun _ => [])
        (fun _ => .ok (.obj [("version", .str "1.0"), ("session", .obj []),
          ("context", .obj []),
          ("request", .obj [("type", .str "LaunchRequest")])]))
        (⟨some 0, none, none, none, []⟩ : Handlers Nat) true "" [] []
      = .ok 0
    ∧ CoreHandler.RequestHandler.route_request (fun _ _ => true) (fun _ => [])
        (fun _ => .ok (.obj [("version", .str "1.0"), ("session", .obj []),
          ("context", .obj []),
          ("request", .obj [("type", .str "LaunchRequest")])]))
        (⟨some 0, none, none, none, []⟩ : Handlers Nat) true "" [] []
      = .error (.keyError "user") :=
  ⟨rfl, rfl⟩

/-- C9 (amended): the two parallel implementations select the same handler
and raise the same errors for every request body whose decoded session
contains a `user` entry and whose `EventRequest` bodies contain an `event`
entry (the delegated model reads both eagerly at construction; on bodies
missing them it fails with `KeyError` where the flat model dispatches); the
duplicated `SpeechBuilder` and `ResponseBuilder` classes return identical
outputs for identical inputs. -/
theorem c9_variants_agree {H : Type} (tbl : Handlers H) (dbg : Bool) (app : String)
    (verify : List Nat → List Nat → Bool) (b64decode : String → List Nat)
    (json_loads : List Nat → Except PyErr JVal)
    (body : List Nat) (headers : List (String × String))
    (h : ∀ rd, json_loads body = .ok rd →
        (∃ sess user, rd.getItem "session" = .ok sess ∧ sess.getItem "user" = .ok user)
        ∧ (∀ req, rd.getItem "request" = .ok req →
            req.getItem "type" = .ok (.str "EventRequest") →
            ∃ e, req.getItem "event" = .ok e)) :
    Core.RequestHandler.route_request verify b64decode json_loads tbl dbg app
        body headers
      = CoreHandler.RequestHandler.route_request verify b64decode json_loads tbl dbg app
        body headers
    ∧ (∀ d m l, Core.SpeechBuilder.plain_text ⟨d⟩ m l
        = CoreHandler.SpeechBuilder.plain_text ⟨d⟩ m l)
    ∧ (∀ d a, Core.SpeechBuilder.url ⟨d⟩ a = CoreHandler.SpeechBuilder.url ⟨d⟩ a)
    ∧ (∀ d v, Core.SpeechBuilder.simple_speech ⟨d⟩ v
        = CoreHandler.SpeechBuilder.simple_speech ⟨d⟩ v)
    ∧ (∀ d vs, Core.SpeechBuilder.speech_list ⟨d⟩ vs
        = CoreHandler.SpeechBuilder.speech_list ⟨d⟩ vs)
    ∧ (∀ d bf v, Core.SpeechBuilder.speech_set ⟨d⟩ bf v
        = CoreHandler.SpeechBuilder.speech_set ⟨d⟩ bf v)
    ∧ (∀ d v es, Core.ResponseBuilder.simple_speech ⟨d, ⟨d⟩⟩ v es
        = CoreHandler.ResponseBuilder.simple_speech ⟨d, ⟨d⟩⟩ v es)
    ∧ (∀ d m l es, Core.ResponseBuilder.simple_speech_text ⟨d, ⟨d⟩⟩ m l es
        = CoreHandler.ResponseBuilder.simple_speech_text ⟨d, ⟨d⟩⟩ m l es)
    ∧ (∀ d vs es, Core.ResponseBuilder.speech_list ⟨d, ⟨d⟩⟩ vs es
        = CoreHandler.ResponseBuilder.speech_list ⟨d, ⟨d⟩⟩ vs es)
    ∧ (∀ d m u l es, Core.ResponseBuilder.speech_url ⟨d, ⟨d⟩⟩ m u l es
        = CoreHandler.ResponseBuilder.speech_url ⟨d, ⟨d⟩⟩ m u l es)
    ∧ (∀ d bf v es, Core.ResponseBuilder.speech_set ⟨d, ⟨d⟩⟩ bf v es
        = CoreHandler.ResponseBuilder.speech_set ⟨d, ⟨d⟩⟩ bf v es)
    ∧ (∀ r s, Core.ResponseBuilder.add_reprompt r s
        = CoreHandler.ResponseBuilder.add_reprompt r s)
    ∧ (∀ d, Core.SpeechBuilder.make d = (CoreHandler.SpeechBuilder.make d).map
        (fun b => ⟨b.default_language⟩)) := by
  refine ⟨?_, fun d m l => rfl, fun d a => rfl, fun d v => rfl, fun d vs => rfl,
    fun d bf v => rfl, fun d v es => rfl, fun d m l es => rfl, fun d vs es => rfl,
    fun d m u l es => rfl, fun d bf v es => rfl, fun r s => rfl, ?_⟩
  · unfold Core.RequestHandler.route_request CoreHandler.RequestHandler.route_request
    cases hjson : json_loads body with
    | error e =>
        cases dbg <;> simp [hjson]
    | ok rd =>
        obtain ⟨⟨sess, user, hsess, huser⟩, hev⟩ := h rd hjson
        have heq := create_eq_from_dict rd sess user hsess huser hev
        cases dbg <;> simp [route_dispatch, hjson, heq]
  · intro d
    unfold Core.SpeechBuilder.make CoreHandler.SpeechBuilder.make
    cases hv : CoreHandler.validate_language d <;>
      simp [show Core.validate_language d = CoreHandler.validate_language d from rfl, hv]

/-- Witness for C9: on a concrete event request whose session has a `user`
entry, both implementations select the registered event handler. -/
theorem c9_witness :
    Core.RequestHandler.route_request (fun _ _ => true) (fun _ => [])
        (fun _ => .ok (.obj [("version", .str "1.0"),
          ("session", .obj [("user", .obj [])]), ("context", .obj []),
          ("request", .obj [("type", .str "EventRequest"), ("event", .obj []),
            ("requestId", .str "r1"), ("timestamp", .str "t")])]))
        (⟨some 7, none, some 5, none, []⟩ : Handlers Nat) true "" [] []
      = CoreHandler.RequestHandler.route_request (fun _ _ => true) (fun _ => [])
        (fun _ => .ok (.obj [("version", .str "1.0"),
          ("session", .obj [("user", .obj [])]), ("context", .obj []),
          ("request", .obj [("type", .str "EventRequest"), ("event", .obj []),
            ("requestId", .str "r1"), ("timestamp", .str "t")])]))
        (⟨some 7, none, some 5, none, []⟩ : Handlers Nat) true "" [] []
    ∧ Core.RequestHandler.route_request (fun _ _ => true) (fun _ => [])
        (fun _ => .ok (.obj [("version", .str "1.0"),
          ("session", .obj [("user", .obj [])]), ("context", .obj []),
          ("request", .obj [("type", .str "EventRequest"), ("event", .obj []),
            ("requestId", .str "r1"), ("timestamp", .str "t")])]))
        (⟨some 7, none, some 5, none, []⟩ : Handlers Nat) true "" [] []
      = .ok 5 := by
  constructor
  · refine (c9_variants_agree (⟨some 7, none, some 5, none, []⟩ : Handlers Nat) true ""
      (fun _ _ => true) (fun _ => [])
      (fun _ => .ok (.obj [("version", .str "1.0"),
        ("session", .obj [("user", .obj [])]), ("context", .obj []),
        ("request", .obj [("type", .str "EventRequest"), ("event", .obj []),
          ("requestId", .str "r1"), ("timestamp", .str "t")])]))
      [] [] ?_).1
    intro rd hrd
    injection hrd with hrd
    subst hrd
    refine ⟨⟨.obj [("user", .obj [])], .obj [], rfl, rfl⟩, ?_⟩
    intro req hreq hty
    rw [show (JVal.obj [("version", .str "1.0"),
        ("session", .obj [("user", .obj [])]), ("context", .obj []),
        ("request", .obj [("type", .str "EventRequest"), ("event", .obj []),
          ("requestId", .str "r1"), ("timestamp", .str "t")])]).getItem "request"
      = .ok (.obj [("type", .str "EventRequest"), ("event", .obj []),
          ("requestId", .str "r1"), ("timestamp", .str "t")]) from rfl] at hreq
    injection hreq with hreq
    subst hreq
    exact ⟨.obj [], rfl⟩
  · rfl

/-- C2 counterexample: `SpeechBuilder.speech_set` performs no validation —
applied to a verbose argument that is itself a SpeechSet, it returns (not
fails) a SpeechSet whose `verbose` field is another SpeechSet. -/
theorem c2_counterexample :
    Core.SpeechBuilder.speech_set ⟨"ja"⟩
        (.obj [("type", .str "PlainText"), ("lang", .str "ja"), ("value", .str "brief")])
        (Core.SpeechBuilder.speech_set ⟨"ja"⟩
          (.obj [("type", .str "PlainText"), ("lang", .str "ja"), ("value", .str "b2")])
          (.obj [("type", .str "SimpleSpeech"), ("values", .obj [])]))
      = .obj [("type", .str "SpeechSet"),
          ("brief", .obj [("type", .str "PlainText"), ("lang", .str "ja"),
            ("value", .str "brief")]),
          ("verbose", .obj [("type", .str "SpeechSet"),
            ("brief", .obj [("type", .str "PlainText"), ("lang", .str "ja"),
              ("value", .str "b2")]),
            ("verbose", .obj [("type", .str "SimpleSpeech"), ("values", .obj [])])])]
    ∧ ((Core.SpeechBuilder.speech_set ⟨"ja"⟩
        (.obj [("type", .str "PlainText"), ("lang", .str "ja"), ("value", .str "brief")])
        (Core.SpeechBuilder.speech_set ⟨"ja"⟩
          (.obj [("type", .str "PlainText"), ("lang", .str "ja"), ("value", .str "b2")])
          (.obj [("type", .str "SimpleSpeech"), ("values", .obj [])]))).getItem "verbose"
      >>= fun v => v.getItem "type")
      = .ok (.str "SpeechSet") :=
  ⟨rfl, rfl⟩

/-- C2 (amended): `SpeechBuilder.speech_set` itself performs no check and
happily nests Sets; it is only the `MessageSet` normalization path of
`cek/clova.py` (`_response_speech`, used for reprompts and mirrored inline
in `Clova.response`) that fails with `TypeError` when a `MessageSet`'s
verbose is itself a `MessageSet` — and whenever that path succeeds, the
verbose of a produced SpeechSet is a SimpleSpeech or SpeechList, never
another SpeechSet. -/
theorem c2_set_nesting (b : Core.SpeechBuilder) (brief v1 v2 : Clova.CMessage) :
    (∀ bv, Clova._response_value b brief = .ok bv →
        Clova._response_speech b (.messageSet brief (.messageSet v1 v2))
          = .error (.typeError "Unsupported type found in Message"))
    ∧ (∀ m j, Clova._response_speech b m = .ok j →
        j.getItem "type" = .ok (.str "SpeechSet") →
        ∃ vj, j.getItem "verbose" = .ok vj
          ∧ (vj.getItem "type" = .ok (.str "SimpleSpeech")
             ∨ vj.getItem "type" = .ok (.str "SpeechList"))) := by
  constructor
  · intro bv hbv
    have hstep : Clova._response_speech b (.messageSet brief (.messageSet v1 v2))
        = (Clova._response_value b brief) >>= (fun brief_value =>
            (Except.error (.typeError "Unsupported type found in Message")
              : Except PyErr JVal) >>= (fun verbose_speech =>
              .ok (b.speech_set brief_value verbose_speech))) := rfl
    rw [hstep, hbv]
    rfl
  · intro m j hj hty
    cases m with
    | str s =>
        rw [show Clova._response_speech b (.str s)
            = (Clova._response_value b (.str s)).map (b.simple_speech) from rfl] at hj
        cases hv : Clova._response_value b (.str s) with
        | error e => rw [hv] at hj; exact Except.noConfusion hj
        | ok val =>
            rw [hv] at hj
            simp only [except_map_ok] at hj
            injection hj with hj
            subst hj
            rw [show (Core.SpeechBuilder.simple_speech b val).getItem "type"
                = .ok (.str "SimpleSpeech") from rfl] at hty
            injection hty with hty
            injection hty with hty
            exact absurd hty (by decide)
    | message t lg =>
        rw [show Clova._response_speech b (.message t lg)
            = (Clova._response_value b (.message t lg)).map (b.simple_speech) from rfl] at hj
        cases hv : Clova._response_value b (.message t lg) with
        | error e => rw [hv] at hj; exact Except.noConfusion hj
        | ok val =>
            rw [hv] at hj
            simp only [except_map_ok] at hj
            injection hj with hj
            subst hj
            rw [show (Core.SpeechBuilder.simple_speech b val).getItem "type"
                = .ok (.str "SimpleSpeech") from rfl] at hty
            injection hty with hty
            injection hty with hty
            exact absurd hty (by decide)
    | url a =>
        rw [show Clova._response_speech b (.url a)
            = (Clova._response_value b (.url a)).map (b.simple_speech) from rfl] at hj
        cases hv : Clova._response_value b (.url a) with
        | error e => rw [hv] at hj; exact Except.noConfusion hj
        | ok val =>
            rw [hv] at hj
            simp only [except_map_ok] at hj
            injection hj with hj
            subst hj
            rw [show (Core.SpeechBuilder.simple_speech b val).getItem "type"
                = .ok (.str "SimpleSpeech") from rfl] at hty
            injection hty with hty
            injection hty with hty
            exact absurd hty (by decide)
    | list ms =>
        rw [show Clova._response_speech b (.list ms)
            = (Clova._response_values b ms).map (b.speech_list) from rfl] at hj
        cases hv : Clova._response_values b ms with
        | error e => rw [hv] at hj; exact Except.noConfusion hj
        | ok vals =>
            rw [hv] at hj
            simp only [except_map_ok] at hj
            injection hj with hj
            subst hj
            rw [show (Core.SpeechBuilder.speech_list b vals).getItem "type"
                = .ok (.str "SpeechList") from rfl] at hty
            injection hty with hty
            injection hty with hty
            exact absurd hty (by decide)
    | messageSet brief' verbose' =>
        simp only [Clova._response_speech] at hj
        cases hbv : Clova._response_value b brief' with
        | error e =>
            rw [hbv] at hj
            simp only [except_bind_error] at hj
            exact Except.noConfusion hj
        | ok bv =>
            rw [hbv] at hj
            simp only [except_bind_ok] at hj
            cases verbose' with
            | list vs =>
                cases hvs : Clova._response_values b vs with
                | error e =>
                    simp only [hvs, except_map_error, except_bind_error] at hj
                    exact Except.noConfusion hj
                | ok vals =>
                    simp only [hvs, except_map_ok, except_bind_ok] at hj
                    injection hj with hj
                    subst hj
                    exact ⟨b.speech_list vals, rfl, .inr rfl⟩
            | str s =>
                cases hv : Clova._response_value b (.str s) with
                | error e =>
                    simp only [hv, except_map_error, except_bind_error] at hj
                    exact Except.noConfusion hj
                | ok val =>
                    simp only [hv, except_map_ok, except_bind_ok] at hj
                    injection hj with hj
                    subst hj
                    exact ⟨b.simple_speech val, rfl, .inl rfl⟩
            | message t lg =>
                cases hv : Clova._response_value b (.message t lg) with
                | error e =>
                    simp only [hv, except_map_error, except_bind_error] at hj
                    exact Except.noConfusion hj
                | ok val =>
                    simp only [hv, except_map_ok, except_bind_ok] at hj
                    injection hj with hj
                    subst hj
                    exact ⟨b.simple_speech val, rfl, .inl rfl⟩
            | url a =>
                cases hv : Clova._response_value b (.url a) with
                | error e =>
                    simp only [hv, except_map_error, except_bind_error] at hj
                    exact Except.noConfusion hj
                | ok val =>
                    simp only [hv, except_map_ok, except_bind_ok] at hj
                    injection hj with hj
                    subst hj
                    exact ⟨b.simple_speech val, rfl, .inl rfl⟩
            | messageSet w1 w2 =>
                simp only [show Clova._response_value b (.messageSet w1 w2)
                    = .error (.typeError "Unsupported type found in Message") from rfl,
                  except_map_error, except_bind_error] at hj
                exact Except.noConfusion hj

/-- Witness for C2: the nested `MessageSet` fails with `TypeError` on a
concrete input. -/
theorem c2_witness :
    Clova._response_speech ⟨"ja"⟩
        (.messageSet (.str "hi") (.messageSet (.str "a") (.str "b")))
      = .error (.typeError "Unsupported type found in Message") :=
  (c2_set_nesting ⟨"ja"⟩ (.str "hi") (.str "a") (.str "b")).1
    (.obj [("type", .str "PlainText"), ("lang", .str "ja"), ("value", .str "hi")]) rfl

theorem setField_lookup_self (fs : List (String × JVal)) (k : String) (v : JVal)
    (h : lookupField fs k = some v) : setField fs k v = fs := by
  induction fs with
  | nil => simp [lookupField] at h
  | cons hd tl ih =>
      obtain ⟨k₀, v₀⟩ := hd
      by_cases hk : k₀ = k
      · subst hk
        have h' : v₀ = v := by simpa [lookupField] using h
        subst h'
        simp [setField]
      · simp only [lookupField, if_neg hk] at h
        simp [setField, hk, ih h]

/-- C3 counterexample: reading `session.attributes` on a request whose
decoded session lacks a `sessionAttributes` key mutates the decoded request
object — `setdefault` inserts the key. -/
theorem c3_counterexample :
    Core.Request.attributes_effect
        (.obj [("version", .str "1.0"),
               ("session", .obj [("sessionId", .str "s1")]),
               ("context", .obj []),
               ("request", .obj [("type", .str "LaunchRequest")])])
      = .ok (.obj [],
          .obj [("version", .str "1.0"),
                ("session", .obj [("sessionId", .str "s1"),
                                  ("sessionAttributes", .obj [])]),
                ("context", .obj []),
                ("request", .obj [("type", .str "LaunchRequest")])])
    ∧ (JVal.obj [("version", .str "1.0"),
         ("session", .obj [("sessionId", .str "s1"), ("sessionAttributes", .obj [])]),
         ("context", .obj []),
         ("request", .obj [("type", .str "LaunchRequest")])])
      ≠ .obj [("version", .str "1.0"),
              ("session", .obj [("sessionId", .str "s1")]),
              ("context", .obj []),
              ("request", .obj [("type", .str "LaunchRequest")])] := by
  refine ⟨rfl, ?_⟩
  intro h
  injection h with h
  simp at h

/-- C3 (amended): of the listed accessors only `session.attributes` has an
effect on the decoded request object: when the session already contains a
`sessionAttributes` key the read returns it and leaves the object
unchanged; when it does not, the read returns an empty mapping and the only
change to the object is the insertion of `sessionAttributes: {}` into the
session (every key other than `session` reads unchanged). -/
theorem c3_read_only (rd attrs : JVal) (fs gs : List (String × JVal))
    (hrd : rd = .obj fs) (hsess : lookupField fs "session" = some (.obj gs)) :
    (lookupField gs "sessionAttributes" = some attrs →
        Core.Request.attributes_effect rd = .ok (attrs, rd))
    ∧ (lookupField gs "sessionAttributes" = none →
        Core.Request.attributes_effect rd
          = .ok (.obj [], .obj (setField fs "session"
              (.obj (gs ++ [("sessionAttributes", .obj [])])))))
    ∧ (∀ v rd', Core.Request.attributes_effect rd = .ok (v, rd') →
        ∀ k, k ≠ "session" → JVal.getItem rd' k = JVal.getItem rd k) := by
  subst hrd
  have hget : JVal.getItem (.obj fs) "session" = .ok (.obj gs) := by
    simp [JVal.getItem, hsess]
  refine ⟨?_, ?_, ?_⟩
  · intro hattr
    rw [show Core.Request.attributes_effect (.obj fs)
        = (JVal.getItem (.obj fs) "session" >>= fun session =>
            Core.Session.attributes session >>= fun p =>
              JVal.setItem (.obj fs) "session" p.2 >>= fun rd' =>
                .ok (p.1, rd')) from rfl]
    rw [hget]
    simp only [except_bind_ok, Core.Session.attributes, JVal.setdefault, hattr,
      JVal.setItem]
    simp [setField_lookup_self fs "session" (.obj gs) hsess]
  · intro hattr
    rw [show Core.Request.attributes_effect (.obj fs)
        = (JVal.getItem (.obj fs) "session" >>= fun session =>
            Core.Session.attributes session >>= fun p =>
              JVal.setItem (.obj fs) "session" p.2 >>= fun rd' =>
                .ok (p.1, rd')) from rfl]
    rw [hget]
    simp only [except_bind_ok, Core.Session.attributes, JVal.setdefault, hattr,
      JVal.setItem]
  · intro v rd' h k hk
    rw [show Core.Request.attributes_effect (.obj fs)
        = (JVal.getItem (.obj fs) "session" >>= fun session =>
            Core.Session.attributes session >>= fun p =>
              JVal.setItem (.obj fs) "session" p.2 >>= fun rd' =>
                .ok (p.1, rd')) from rfl] at h
    rw [hget] at h
    simp only [except_bind_ok, Core.Session.attributes, JVal.setdefault] at h
    cases hlook : lookupField gs "sessionAttributes" with
    | some w =>
        rw [hlook] at h
        simp only [JVal.setItem, except_bind_ok] at h
        injection h with h
        rw [show rd' = JVal.obj (setField fs "session" (.obj gs)) from
          congrArg Prod.snd h.symm]
        simp [JVal.getItem, lookupField_setField_ne fs "session" k _ hk]
    | none =>
        rw [hlook] at h
        simp only [JVal.setItem, except_bind_ok] at h
        injection h with h
        rw [show rd' = JVal.obj (setField fs "session"
            (.obj (gs ++ [("sessionAttributes", .obj [])]))) from
          congrArg Prod.snd h.symm]
        simp [JVal.getItem, lookupField_setField_ne fs "session" k _ hk]

/-- Witness for C3: on a session that already carries `sessionAttributes`,
the read returns it and the decoded object is unchanged. -/
theorem c3_witness :
    Core.Request.attributes_effect
        (.obj [("session", .obj [("sessionAttributes", .obj [("a", .num 1)])]),
               ("request", .obj [("type", .str "LaunchRequest")])])
      = .ok (.obj [("a", .num 1)],
          .obj [("session", .obj [("sessionAttributes", .obj [("a", .num 1)])]),
                ("request", .obj [("type", .str "LaunchRequest")])]) :=
  (c3_read_only
    (.obj [("session", .obj [("sessionAttributes", .obj [("a", .num 1)])]),
           ("request", .obj [("type", .str "LaunchRequest")])])
    (.obj [("a", .num 1)])
    [("session", .obj [("sessionAttributes", .obj [("a", .num 1)])]),
     ("request", .obj [("type", .str "LaunchRequest")])]
    [("sessionAttributes", .obj [("a", .num 1)])] rfl rfl).1 rfl

theorem resolveSlots_spec (fs : List (String × JVal)) :
    ∀ l, Core.resolveSlots fs = .ok l →
      List.Forall₂ (fun p q => (q : String × JVal).1 = (p : String × JVal).1
        ∧ (p : String × JVal).2.getItem "value" = .ok (q : String × JVal).2) fs l := by
  induction fs with
  | nil =>
      intro l h
      rw [show Core.resolveSlots [] = .ok [] from rfl] at h
      injection h with h
      subst h
      exact .nil
  | cons p ps ih =>
      intro l h
      rw [show Core.resolveSlots (p :: ps)
          = (p.2.getItem "value" >>= fun v =>
              Core.resolveSlots ps >>= fun others => .ok ((p.1, v) :: others)) from rfl] at h
      cases hv : p.2.getItem "value" with
      | error e => rw [hv] at h; exact Except.noConfusion h
      | ok v =>
          rw [hv] at h
          simp only [except_bind_ok] at h
          cases hps : Core.resolveSlots ps with
          | error e => rw [hps] at h; exact Except.noConfusion h
          | ok others =>
              rw [hps] at h
              simp only [except_bind_ok] at h
              injection h with h
              subst h
              exact .cons ⟨rfl, hv⟩ (ih others hps)

/-- C4 counterexample: on a request whose intent carries `"slots": null`
(no slots present — the shape of the repository's own
`test/data/example_request.py`), `slots_dict` does not return an empty
mapping: iterating `None` raises `TypeError`. -/
theorem c4_counterexample :
    Core.IntentRequest.slots_dict
        (.obj [("request", .obj [("type", .str "IntentRequest"),
          ("intent", .obj [("name", .str "Clova.GuideIntent"), ("slots", .null)])])])
      = .error (.typeError "NoneType object is not iterable")
    ∧ ∀ l, Core.IntentRequest.slots_dict
        (.obj [("request", .obj [("type", .str "IntentRequest"),
          ("intent", .obj [("name", .str "Clova.GuideIntent"), ("slots", .null)])])])
      ≠ .ok l := by
  refine ⟨rfl, ?_⟩
  intro l h
  rw [show Core.IntentRequest.slots_dict
        (.obj [("request", .obj [("type", .str "IntentRequest"),
          ("intent", .obj [("name", .str "Clova.GuideIntent"), ("slots", .null)])])])
      = .error (.typeError "NoneType object is not iterable") from rfl] at h
  exact Except.noConfusion h

/-- C4 (amended): when the slots object is present, `slots`/`slots_dict`
return the mapping of each slot name to its resolved value — in particular
the empty mapping for an empty slots object — and `slot_value` returns the
slot's value when present and `None` otherwise; but when the slots field is
`null` (no slots present), `slots`/`slots_dict` raise `TypeError` while
`slot_value` returns `None`. -/
theorem c4_slots (rd req intent : JVal) (fields : List (String × JVal)) (n : String)
    (hreq : rd.getItem "request" = .ok req)
    (hint : req.getItem "intent" = .ok intent) :
    (intent.getItem "slots" = .ok (.obj []) →
        Core.IntentRequest.slots_dict rd = .ok []
        ∧ Models.IntentRequest.slots rd = .ok [])
    ∧ (intent.getItem "slots" = .ok .null →
        Core.IntentRequest.slots_dict rd
          = .error (.typeError "NoneType object is not iterable")
        ∧ Core.IntentRequest.slot_value rd n = .ok none)
    ∧ (intent.getItem "slots" = .ok (.obj fields) →
        (∀ l, Core.IntentRequest.slots_dict rd = .ok l →
            List.Forall₂ (fun p q => (q : String × JVal).1 = (p : String × JVal).1
              ∧ (p : String × JVal).2.getItem "value" = .ok (q : String × JVal).2)
              fields l)
        ∧ (∀ sv v, lookupField fields n = some sv → sv.getItem "value" = .ok v →
            Core.IntentRequest.slot_value rd n = .ok (some v))
        ∧ (lookupField fields n = none →
            Core.IntentRequest.slot_value rd n = .ok none)
        ∧ Models.IntentRequest.slots rd = Core.IntentRequest.slots_dict rd) := by
  refine ⟨?_, ?_, ?_⟩
  · intro hslots
    constructor
    · simp [Core.IntentRequest.slots_dict, hreq, hint, hslots, Core.resolveSlots]
    · simp [Models.IntentRequest.slots, hreq, hint, hslots, Core.resolveSlots]
  · intro hslots
    constructor
    · simp [Core.IntentRequest.slots_dict, hreq, hint, hslots]
    · simp [Core.IntentRequest.slot_value, hreq, hint, hslots]
  · intro hslots
    refine ⟨?_, ?_, ?_, rfl⟩
    · intro l hl
      apply resolveSlots_spec fields l
      rw [show Core.IntentRequest.slots_dict rd
          = (rd.getItem "request" >>= fun req =>
              req.getItem "intent" >>= fun intent =>
                intent.getItem "slots" >>= fun slots =>
                  match slots with
                  | .obj fields => Core.resolveSlots fields
                  | .null => .error (.typeError "NoneType object is not iterable")
                  | .str s => if s = "" then .ok []
                      else .error (.typeError "string indices must be integers")
                  | .arr [] => .ok []
                  | .arr _ => .error (.typeError "list indices must be integers")
                  | _ => .error (.typeError "object is not iterable")) from rfl,
        hreq] at hl
      simp only [except_bind_ok] at hl
      rw [hint] at hl
      simp only [except_bind_ok] at hl
      rw [hslots] at hl
      simpa using hl
    · intro sv v hlook hv
      simp [Core.IntentRequest.slot_value, hreq, hint, hslots, hlook, hv]
    · intro hlook
      simp [Core.IntentRequest.slot_value, hreq, hint, hslots, hlook]

/-- Witness for C4: concrete slot reads on a request with one slot. -/
theorem c4_witness :
    Core.IntentRequest.slot_value
        (.obj [("request", .obj [("type", .str "IntentRequest"),
          ("intent", .obj [("name", .str "TurnOn"),
            ("slots", .obj [("Light", .obj [("name", .str "Light"),
              ("value", .str "light-on")])])])])])
        "Light"
      = .ok (some (.str "light-on"))
    ∧ Core.IntentRequest.slot_value
        (.obj [("request", .obj [("type", .str "IntentRequest"),
          ("intent", .obj [("name", .str "TurnOn"),
            ("slots", .obj [("Light", .obj [("name", .str "Light"),
              ("value", .str "light-on")])])])])])
        "AirCon"
      = .ok none := by
  constructor
  · exact ((c4_slots
      (.obj [("request", .obj [("type", .str "IntentRequest"),
        ("intent", .obj [("name", .str "TurnOn"),
          ("slots", .obj [("Light", .obj [("name", .str "Light"),
            ("value", .str "light-on")])])])])])
      (.obj [("type", .str "IntentRequest"),
        ("intent", .obj [("name", .str "TurnOn"),
          ("slots", .obj [("Light", .obj [("name", .str "Light"),
            ("value", .str "light-on")])])])])
      (.obj [("name", .str "TurnOn"),
        ("slots", .obj [("Light", .obj [("name", .str "Light"),
          ("value", .str "light-on")])])])
      [("Light", .obj [("name", .str "Light"), ("value", .str "light-on")])]
      "Light" rfl rfl).2.2 rfl).2.1
      (.obj [("name", .str "Light"), ("value", .str "light-on")])
      (.str "light-on") rfl rfl
  · exact ((c4_slots
      (.obj [("request", .obj [("type", .str "IntentRequest"),
        ("intent", .obj [("name", .str "TurnOn"),
          ("slots", .obj [("Light", .obj [("name", .str "Light"),
            ("value", .str "light-on")])])])])])
      (.obj [("type", .str "IntentRequest"),
        ("intent", .obj [("name", .str "TurnOn"),
          ("slots", .obj [("Light", .obj [("name", .str "Light"),
            ("value", .str "light-on")])])])])
      (.obj [("name", .str "TurnOn"),
        ("slots", .obj [("Light", .obj [("name", .str "Light"),
          ("value", .str "light-on")])])])
      [("Light", .obj [("name", .str "Light"), ("value", .str "light-on")])]
      "AirCon" rfl rfl).2.2 rfl).2.2.1 rfl

end Cek
